import Mathlib

set_option maxRecDepth 4000

namespace SerialMon

/-! Shallow embedding of the serial monitor of lucashutch/simple-serial-monitor.

The legacy script `src/monitor.py` is embedded directly.  The packaged
rewrite `src/embedded_cereal_bowl/monitor/monitor.py` is not present in the
tree (only its test-suite and package `__init__` are), so the parts of it
that claims need are modelled from the specification and cross-checked
against the expectations recorded in `tests/test_monitor.py`,
`tests/test_utilities.py` and `tests/integration/test_serial_integration.py`;
each such definition is marked `Modelled from the spec:` in its doc comment. -/

/-! ## Byte decoding, src/monitor.py line 79:
`ser.readline().decode('utf-8', errors="ignore")`.
A byte list stands for the Python `bytes`; the result is the decoded text.
Invalid byte sequences are dropped (the `ignore` error handler skips the
maximal valid subpart of an ill-formed sequence and resumes at the first
offending byte), matching the CPython UTF-8 codec. -/

def contByte (b : Nat) : Bool := 0x80 ≤ b && b ≤ 0xBF

/-- One decoding step of the UTF-8 codec with the `ignore` error handler:
either the next decoded character together with the rest of the bytes, or
(for an ill-formed or truncated sequence) no character and the bytes at
which decoding resumes.  The remainder is always strictly shorter than a
non-empty input. -/
def utf8Step : List Nat → Option Char × List Nat
  | [] => (none, [])
  | b :: bs =>
    if b < 0x80 then (some (Char.ofNat b), bs)
    else if 0xC2 ≤ b && b ≤ 0xDF then
      match bs with
      | [] => (none, [])
      | b2 :: rest =>
        if contByte b2 then
          (some (Char.ofNat ((b - 0xC0) * 64 + (b2 - 0x80))), rest)
        else (none, b2 :: rest)
    else if 0xE0 ≤ b && b ≤ 0xEF then
      match bs with
      | [] => (none, [])
      | b2 :: rest2 =>
        if (if b = 0xE0 then 0xA0 ≤ b2 && b2 ≤ 0xBF
            else if b = 0xED then 0x80 ≤ b2 && b2 ≤ 0x9F
            else contByte b2) then
          match rest2 with
          | [] => (none, [])
          | b3 :: rest3 =>
            if contByte b3 then
              (some (Char.ofNat ((b - 0xE0) * 4096 + (b2 - 0x80) * 64 + (b3 - 0x80))),
                rest3)
            else (none, b3 :: rest3)
        else (none, b2 :: rest2)
    else if 0xF0 ≤ b && b ≤ 0xF4 then
      match bs with
      | [] => (none, [])
      | b2 :: rest2 =>
        if (if b = 0xF0 then 0x90 ≤ b2 && b2 ≤ 0xBF
            else if b = 0xF4 then 0x80 ≤ b2 && b2 ≤ 0x8F
            else contByte b2) then
          match rest2 with
          | [] => (none, [])
          | b3 :: rest3 =>
            if contByte b3 then
              match rest3 with
              | [] => (none, [])
              | b4 :: rest4 =>
                if contByte b4 then
                  (some (Char.ofNat ((b - 0xF0) * 262144 + (b2 - 0x80) * 4096 +
                      (b3 - 0x80) * 64 + (b4 - 0x80))), rest4)
                else (none, b4 :: rest4)
            else (none, b3 :: rest3)
        else (none, b2 :: rest2)
    else (none, bs)

/-- Fuel-indexed decoding loop; the fuel is instantiated with the input
length, which always suffices because each step consumes at least one
byte. -/
def decodeGo : Nat → List Nat → List Char
  | _, [] => []
  | 0, _ => []
  | fuel + 1, b :: bs =>
    match utf8Step (b :: bs) with
    | (some c, rest) => c :: decodeGo fuel rest
    | (none, rest) => decodeGo fuel rest

def utf8DecodeIgnore (l : List Nat) : List Char := decodeGo l.length l

/-! ## ANSI stripping, src/monitor.py lines 55-57: `ansi_escape.sub('', line)`
where the compiled pattern is, spelled with hexadecimal ranges to keep the
comment well formed: an introducer (ESC then one of 0x40..0x5F, or a single
C1 byte 0x80..0x9F), then zero or more parameter bytes 0x30..0x3F, then
zero or more intermediate bytes 0x20..0x2F, then one final byte 0x40..0x7E.
The character classes of the pattern: -/

def escChar : Char := Char.ofNat 0x1B

def isC1 (c : Char) : Bool := 0x80 ≤ c.toNat && c.toNat ≤ 0x9F

def isEscSecond (c : Char) : Bool := 0x40 ≤ c.toNat && c.toNat ≤ 0x5F

def isParamByte (c : Char) : Bool := 0x30 ≤ c.toNat && c.toNat ≤ 0x3F

def isInterByte (c : Char) : Bool := 0x20 ≤ c.toNat && c.toNat ≤ 0x2F

def isFinalByte (c : Char) : Bool := 0x40 ≤ c.toNat && c.toNat ≤ 0x7E

/-- An escape-sequence introducer: the characters a match of the pattern can
start with (ESC for the two-character alternative, or a C1 control). -/
def isIntro (c : Char) : Bool := c = escChar || isC1 c

/-- The introducer alternation of the pattern at the head of a string (ESC
followed by one character 0x40..0x5F, or one C1 character): `some rest`
when it matches, leaving `rest`. -/
def ansiIntro : List Char → Option (List Char)
  | [] => none
  | c :: rest =>
    if c = escChar then
      match rest with
      | [] => none
      | d :: rest2 => if isEscSecond d then some rest2 else none
    else if isC1 c then some rest
    else none

/-- A match of the whole pattern at the head of a string: `some rest` with
the remainder after the matched sequence.  The two starred classes are
greedy; since the parameter, intermediate and final ranges are pairwise
disjoint, the greedy parse needs no backtracking. -/
def ansiMatch (l : List Char) : Option (List Char) :=
  match ansiIntro l with
  | none => none
  | some r =>
    match (r.dropWhile isParamByte).dropWhile isInterByte with
    | [] => none
    | c :: rest => if isFinalByte c then some rest else none

/-- One left-to-right pass of `re.sub(pattern, '', line)`: at each position
try the pattern; on a match drop it and continue after it, otherwise keep
the character.  Fuel-indexed so the definition is structural; `escape_ansi`
instantiates the fuel with the length of the input, which always suffices
because a match consumes at least two characters. -/
def stripGo : Nat → List Char → List Char
  | _, [] => []
  | 0, l => l
  | fuel + 1, c :: cs =>
    match ansiMatch (c :: cs) with
    | some rest => stripGo fuel rest
    | none => c :: stripGo fuel cs

/-- `escape_ansi` from src/monitor.py lines 55-57. -/
def escape_ansi (l : List Char) : List Char := stripGo l.length l

/-! ## Colour selection, src/monitor.py lines 32-49. -/

/-- The lazy capture of `r'[\[\(](.*?)[\]\)]'` starting right after an
opener: the characters up to the first closer, `none` if a newline or the
end of the string comes first (`.` does not match a newline). -/
def scanToken : List Char → Option (List Char)
  | [] => none
  | c :: cs =>
    if c = ']' || c = ')' then some []
    else if c = Char.ofNat 10 then none
    else (scanToken cs).map (fun t => c :: t)

/-- The first capture of `re.findall(r'[\[\(](.*?)[\]\)]', input_text)`:
the leftmost opener that is followed (newline-free) by a closer, capturing
up to the first such closer. -/
def firstBracketToken : List Char → Option (List Char)
  | [] => none
  | c :: cs =>
    if c = '[' || c = '(' then
      match scanToken cs with
      | some t => some t
      | none => firstBracketToken cs
    else firstBracketToken cs

/-- `find_print_colour` from src/monitor.py lines 32-45. -/
def find_print_colour (input_text : List Char) : Nat :=
  match firstBracketToken input_text with
  | none => 0
  | some t =>
    if t = ['W'] then 93
    else if t = ['E'] then 91
    else if t = ['I'] then 92
    else 0

/-- `print_color` from src/monitor.py lines 47-49: the exact character
sequence written to the terminal, `"\033[{}m{}\033[0m".format(colour, string)`
with `end=''`. -/
def print_color (s : List Char) : List Char :=
  escChar :: '[' :: (toString (find_print_colour s)).data ++ 'm' :: s ++
    [escChar, '[', '0', 'm']

/-! ## The legacy read loop, src/monitor.py lines 73-97. -/

/-- What one call of `ser.readline()` inside the `try` produces: either a
byte string (possibly empty, on timeout) or one of the three exceptions the
loop handles. -/
inductive ReadEvent where
  | bytes (bs : List Nat)
  | serialExc
  | ioError
  | kbInterrupt
deriving DecidableEq, Repr

/-- Session parameters of `run_serial_printing`; `stamp` stands for the text
`"{:.3f} ".format(time.time() - today)` the loop prints when `print_time`
is set (its contents depend on the wall clock and do not matter here). -/
structure LoopConfig where
  print_time : Bool
  pretty_colours : Bool
  hasFile : Bool
  stamp : List Char
deriving DecidableEq, Repr

/-- The loop-visible state: the Python local `colours_stripped` (unbound
before its first assignment, hence an `Option`), the chunks printed to the
terminal so far, and the chunks written to the log file so far. -/
structure LoopState where
  colours_stripped : Option (List Char)
  printed : List (List Char)
  fileContents : List (List Char)
deriving DecidableEq, Repr

/-- How one loop iteration ends: continue with a new state, terminate the
process via `sys.exit` with the given status, or abort with an uncaught
Python exception (which leaves the loop and kills the process). -/
inductive StepResult where
  | next (st : LoopState)
  | exited (code : Nat)
  | pythonError (name : String)
deriving DecidableEq, Repr

/-- The state on entry to the `while True` loop: no chunk printed or logged
yet, `colours_stripped` not yet assigned. -/
def initState : LoopState := ⟨none, [], []⟩

/-- One iteration of the `while True` body of `run_serial_printing`,
src/monitor.py lines 77-97.  On bytes: decode with errors ignored; if the
line is non-empty print the optional time stamp, strip it, remember the
stripped copy and print either the coloured stripped copy or the raw line;
then — outside the non-empty guard, as in the source — if a file is
configured write `colours_stripped` to it, which raises `UnboundLocalError`
when that local has never been assigned.  The three handled exceptions all
reach `print_and_quit`, which prints and calls `sys.exit(1)`
(src/monitor.py lines 51-53). -/
def loopStep (cfg : LoopConfig) (st : LoopState) : ReadEvent → StepResult
  | .bytes bs =>
    let line := utf8DecodeIgnore bs
    let st1 :=
      if line.length > 0 then
        let cs := escape_ansi line
        let shown := if cfg.pretty_colours then print_color cs else line
        { st with
          colours_stripped := some cs
          printed := st.printed ++ (if cfg.print_time then [cfg.stamp] else []) ++ [shown] }
      else st
    if cfg.hasFile then
      match st1.colours_stripped with
      | none => .pythonError "UnboundLocalError"
      | some cs => .next { st1 with fileContents := st1.fileContents ++ [cs] }
    else .next st1
  | .serialExc => .exited 1
  | .ioError => .exited 1
  | .kbInterrupt => .exited 1

/-- Defaults wired into `parse_arguments`, src/monitor.py lines 11-30; in
particular `--pretty_colours` is `store_true` with `default=True`. -/
structure ArgDefaults where
  port : String
  baud : Nat
  log : Bool
  pretty_colours : Bool
deriving DecidableEq, Repr

def legacyArgDefaults : ArgDefaults :=
  { port := "ACM0", baud := 2000000, log := false, pretty_colours := true }

/-! ## The packaged monitor, src/embedded_cereal_bowl/monitor/monitor.py.
That module is not present in the tree — only its package `__init__` and
its tests are — so the definitions below are modelled from the
specification and checked against the expectations hard-coded in the
test-suite. -/

/-- A fixed point in time, as the timestamp annotator consumes it:
microseconds since the UTC epoch, plus the wall-clock rendition the
datetime library would produce for it (an input here, since the library is
an external collaborator). -/
structure Instant where
  us : Nat
  iso : String
deriving DecidableEq, Repr

/-- Three decimal digits, zero padded, as produced for the fractional part
of a fixed-point format with three decimal places. -/
def pad3 (n : Nat) : String :=
  String.mk [Nat.digitChar (n / 100 % 10), Nat.digitChar (n / 10 % 10),
    Nat.digitChar (n % 10)]

/-- Modelled from the spec: `add_time_to_line` of the missing
src/embedded_cereal_bowl/monitor/monitor.py (section 4.4 of the spec, and
`TestAddTimeToLine` in tests/test_monitor.py).  A pure function of the
current instant and the mode selector: `off` yields the empty string,
`epoch` yields UTC epoch seconds with three decimal places and a trailing
space, `ms` yields integer UTC epoch milliseconds and a trailing space,
`dt` and `hours` yield the wall-clock rendition and a trailing space, and
any other mode yields the empty string. -/
def add_time_to_line (print_time : String) (now : Instant) : String :=
  if print_time = "off" then ""
  else if print_time = "epoch" then
    let msTotal := (now.us + 500) / 1000
    toString (msTotal / 1000) ++ "." ++ pad3 (msTotal % 1000) ++ " "
  else if print_time = "ms" then toString (now.us / 1000) ++ " "
  else if print_time = "dt" || print_time = "hours" then now.iso ++ " "
  else ""

/-- Modelled from the spec: the Log Sink write of one read-loop iteration of
`serial_loop` in the missing src/embedded_cereal_bowl/monitor/monitor.py
(spec section 4.2 step 5, and `test_serial_loop_ansi_escape_stripping` in
tests/integration/test_serial_integration.py): on a non-empty line with a
sink configured, the timestamped line is stripped of ANSI escape sequences
and written; an empty read, or an absent sink, writes nothing. -/
def serial_loop_sink (print_time : String) (now : Instant) (hasFile : Bool)
    (line : List Char) : Option (List Char) :=
  if hasFile && line.length > 0 then
    some (escape_ansi ((add_time_to_line print_time now).data ++ line))
  else none

/-- The spinner frames the reconnect indicator cycles through. -/
def SPINNER_STATES : List Char := ['|', '/', '-', '\\']

/-- Modelled from the spec: the fixed pause between two open attempts, in
milliseconds (spec sections 4.1 and 7: a backoff-free fixed delay of a few
hundred milliseconds). -/
def RETRY_DELAY_MS : Nat := 500

/-- Modelled from the spec: `wait_with_spinner` of the missing
src/embedded_cereal_bowl/monitor/monitor.py (`TestWaitWithSpinner` in
tests/test_monitor.py): returns the incremented spinner counter and the
text written to the terminal, a carriage return followed by the waiting
message with the cycling frame. -/
def wait_with_spinner (port : String) (count : Nat) : Nat × List Char :=
  (count + 1,
    '\r' :: SPINNER_STATES.getD (count % SPINNER_STATES.length) '|' ::
      (" waiting for " ++ port).data)

/-- The outcome of one open attempt by the Connection Supervisor: the open
failed (device absent, busy, permission denied), the operator interrupted,
or the open succeeded. -/
inductive OpenAttempt where
  | failure
  | interrupted
  | success
deriving DecidableEq, Repr

/-- An observable action of the Connection Supervisor while connecting. -/
inductive SupAction where
  | spin (frame : List Char)
  | sleep (ms : Nat)
deriving DecidableEq, Repr

/-- Where the Connection Supervisor stands after consuming a run of open
attempts: still connecting (with the current spinner counter), connected
(about to run the read loop), or exited with success status after an
operator interrupt. -/
inductive SupOutcome where
  | connecting (count : Nat)
  | connected (count : Nat)
  | userExit
deriving DecidableEq, Repr

/-- Modelled from the spec: the connect/retry phase of `run_serial_printing`
in the missing src/embedded_cereal_bowl/monitor/monitor.py (spec section
4.1, and `test_run_serial_printing_connection_failure_retry` and
`test_run_serial_printing_keyboard_interrupt` in
tests/integration/test_serial_integration.py): each failed open shows a
spinner frame, sleeps the fixed delay and retries; an operator interrupt
exits with success status; a successful open hands over to the read loop. -/
def supervise (port : String) : List OpenAttempt → Nat → SupOutcome × List SupAction
  | [], c => (.connecting c, [])
  | .failure :: rest, c =>
    let w := wait_with_spinner port c
    let r := supervise port rest w.1
    (r.1, .spin w.2 :: .sleep RETRY_DELAY_MS :: r.2)
  | .interrupted :: _, _ => (.userExit, [])
  | .success :: _, c => (.connected c, [])

/-- The actions a run of `n` consecutive failed opens produces, starting at
spinner counter `c`: one spinner frame and one fixed-delay sleep per
attempt. -/
def retryActions (port : String) : Nat → Nat → List SupAction
  | 0, _ => []
  | n + 1, c =>
    .spin (wait_with_spinner port c).2 :: .sleep RETRY_DELAY_MS ::
      retryActions port n (c + 1)

/-- A session start time, split into calendar fields as `strftime` consumes
them. -/
structure SessionTime where
  year : Nat
  month : Nat
  day : Nat
  hour : Nat
  minute : Nat
  second : Nat
deriving DecidableEq, Repr

/-- Two decimal digits, zero padded, as printf-style `%m`, `%d`, `%H`, `%M`
and `%S` produce them. -/
def pad2 (n : Nat) : String :=
  String.mk [Nat.digitChar (n / 10 % 10), Nat.digitChar (n % 10)]

/-- Four decimal digits, zero padded, as printf-style `%Y` produces them for
current years. -/
def pad4 (n : Nat) : String :=
  String.mk [Nat.digitChar (n / 1000 % 10), Nat.digitChar (n / 100 % 10),
    Nat.digitChar (n / 10 % 10), Nat.digitChar (n % 10)]

/-- The session timestamp `strftime("%Y.%m.%d_%H.%M.%S")`. -/
def sessionStamp (t : SessionTime) : String :=
  pad4 t.year ++ "." ++ pad2 t.month ++ "." ++ pad2 t.day ++ "_" ++
    pad2 t.hour ++ "." ++ pad2 t.minute ++ "." ++ pad2 t.second

/-- Modelled from the spec: the log-file setup of
`run_serial_printing_with_logs` in the missing
src/embedded_cereal_bowl/monitor/monitor.py (spec section 6, and
`TestRunSerialPrintingWithLogs` in tests/test_monitor.py): the log
directory is created when absent (`os.mkdir` is called exactly when
`os.path.isdir` is false), and the file opened for appending is
`<log-directory>/<session stamp>_<log-file-base>.txt`.  Returns whether
`mkdir` was called, and the opened path. -/
def run_serial_printing_with_logs (t : SessionTime) (log_file : String)
    (log_directory : String) (dirExists : Bool) : Bool × String :=
  (!dirExists, log_directory ++ "/" ++ sessionStamp t ++ "_" ++ log_file ++ ".txt")

/-- The raw bytes of the malformed test line from the spec,
`b"\xff\xfe invalid\n"`. -/
def demoBytes : List Nat :=
  [0xFF, 0xFE, 0x20, 0x69, 0x6E, 0x76, 0x61, 0x6C, 0x69, 0x64, 0x0A]

/-- The escape header and trailing reset `print_color` wraps a string in:
the sequence `ESC [ <code> m`, then the string, then `ESC [ 0 m`. -/
def colourWrap (code : Nat) (s : List Char) : List Char :=
  escChar :: '[' :: (toString code).data ++ 'm' :: s ++ [escChar, '[', '0', 'm']

/-- A line consisting of a dangling escape introducer `ESC [` directly
followed by a complete colour-reset sequence `ESC [ 0 m` and a final `m`. -/
def exC7 : List Char := [escChar, '[', escChar, '[', '0', 'm', 'm']

/-- A received line carrying an embedded red colour code and a reset:
`ESC [ 3 1 m r ESC [ 0 m` and a newline. -/
def ansiRedLine : List Char :=
  [escChar, '[', '3', '1', 'm', 'r', escChar, '[', '0', 'm', Char.ofNat 10]

/-- A line with one complete colour sequence between plain characters. -/
def ansiDemoLine : List Char := ['a', escChar, '[', '3', '1', 'm', 'b']

/-! ## Lemmas about the ANSI stripper. -/

theorem dropWhile_length_le {α : Type} (p : α → Bool) :
    ∀ (l : List α), (l.dropWhile p).length ≤ l.length := by
  intro l
  induction l with
  | nil => simp
  | cons c cs ih =>
    simp only [List.dropWhile]
    split
    · simp only [List.length_cons]
      omega
    · simp

theorem ansiIntro_length {l r : List Char} (h : ansiIntro l = some r) :
    r.length < l.length := by
  match l with
  | [] => simp [ansiIntro] at h
  | [c] =>
    simp only [ansiIntro] at h
    split at h
    · simp at h
    · split at h
      · simp only [Option.some.injEq] at h
        subst h
        simp
      · simp at h
  | c :: d :: rest2 =>
    simp only [ansiIntro] at h
    split at h
    · split at h
      · simp only [Option.some.injEq] at h
        subst h
        simp only [List.length_cons]
        omega
      · simp at h
    · split at h
      · simp only [Option.some.injEq] at h
        subst h
        simp only [List.length_cons]
        omega
      · simp at h

theorem ansiMatch_length {l r : List Char} (h : ansiMatch l = some r) :
    r.length < l.length := by
  unfold ansiMatch at h
  cases hi : ansiIntro l with
  | none =>
    rw [hi] at h
    dsimp only at h
    exact absurd h (by simp)
  | some m =>
    rw [hi] at h
    dsimp only at h
    have h1 : ((m.dropWhile isParamByte).dropWhile isInterByte).length ≤ m.length :=
      le_trans (dropWhile_length_le _ _) (dropWhile_length_le _ _)
    cases hd : (m.dropWhile isParamByte).dropWhile isInterByte with
    | nil =>
      rw [hd] at h
      dsimp only at h
      exact absurd h (by simp)
    | cons c rest =>
      rw [hd] at h
      dsimp only at h
      split at h
      · simp only [Option.some.injEq] at h
        subst h
        have h2 := ansiIntro_length hi
        rw [hd] at h1
        simp only [List.length_cons] at h1
        omega
      · exact absurd h (by simp)

theorem stripGo_congr : ∀ (f g : Nat) (l : List Char),
    l.length ≤ f → l.length ≤ g → stripGo f l = stripGo g l := by
  intro f
  induction f with
  | zero =>
    intro g l hf hg
    have hl : l = [] := List.eq_nil_of_length_eq_zero (Nat.le_zero.mp hf)
    subst hl
    cases g <;> simp [stripGo]
  | succ f ih =>
    intro g l hf hg
    match l with
    | [] => cases g <;> simp [stripGo]
    | c :: cs =>
      match g with
      | 0 => simp at hg
      | g + 1 =>
        simp only [List.length_cons] at hf hg
        cases hm : ansiMatch (c :: cs) with
        | some rest =>
          have hlt := ansiMatch_length hm
          simp only [List.length_cons] at hlt
          simp only [stripGo, hm]
          apply ih <;> omega
        | none =>
          simp only [stripGo, hm]
          rw [ih g cs (by omega) (by omega)]

theorem escape_ansi_cons_some {c : Char} {cs rest : List Char}
    (hm : ansiMatch (c :: cs) = some rest) :
    escape_ansi (c :: cs) = escape_ansi rest := by
  have hlt := ansiMatch_length hm
  simp only [List.length_cons] at hlt
  simp only [escape_ansi, List.length_cons, stripGo, hm]
  apply stripGo_congr
  · omega
  · exact le_refl _

theorem escape_ansi_cons_none {c : Char} {cs : List Char}
    (hm : ansiMatch (c :: cs) = none) :
    escape_ansi (c :: cs) = c :: escape_ansi cs := by
  simp only [escape_ansi, List.length_cons, stripGo, hm]

theorem ansiMatch_of_not_intro {c : Char} (cs : List Char)
    (h : isIntro c = false) : ansiMatch (c :: cs) = none := by
  simp only [isIntro, Bool.or_eq_false_iff, decide_eq_false_iff_not] at h
  have h1 : ansiIntro (c :: cs) = none := by
    simp [ansiIntro, h.1, h.2]
  simp [ansiMatch, h1]

theorem escape_ansi_of_clean : ∀ (l : List Char),
    (∀ c ∈ l, isIntro c = false) → escape_ansi l = l := by
  intro l
  induction l with
  | nil => intro _; rfl
  | cons c cs ih =>
    intro h
    rw [escape_ansi_cons_none (ansiMatch_of_not_intro cs (h c (by simp)))]
    rw [ih (fun d hd => h d (by simp [hd]))]

theorem escape_ansi_clean_append : ∀ (ts l : List Char),
    (∀ c ∈ ts, isIntro c = false) →
    escape_ansi (ts ++ l) = ts ++ escape_ansi l := by
  intro ts
  induction ts with
  | nil => intro l _; simp
  | cons c cs ih =>
    intro l h
    rw [List.cons_append,
      escape_ansi_cons_none (ansiMatch_of_not_intro _ (h c (by simp))),
      ih l (fun d hd => h d (by simp [hd]))]
    simp

theorem digitChar_mod10_isDigit (m : Nat) :
    (Nat.digitChar (m % 10)).isDigit = true := by
  have h : m % 10 < 10 := Nat.mod_lt _ (by omega)
  set n := m % 10 with hn
  interval_cases n <;> decide

/-! ## Lemmas about the loop step, the supervisor and the log path. -/

/-- What one iteration of the legacy read loop does to the state whenever
the decoded line is non-empty: remember the stripped copy, print the
optional stamp and then the coloured stripped copy (or the raw line), and
append the stripped copy to the log file when one is configured. -/
theorem loopStep_bytes_next (cfg : LoopConfig) (st : LoopState) (bs : List Nat)
    (h : utf8DecodeIgnore bs ≠ []) :
    loopStep cfg st (.bytes bs) = .next
      { colours_stripped := some (escape_ansi (utf8DecodeIgnore bs))
        printed := st.printed ++ (if cfg.print_time then [cfg.stamp] else []) ++
          [if cfg.pretty_colours then print_color (escape_ansi (utf8DecodeIgnore bs))
           else utf8DecodeIgnore bs]
        fileContents := st.fileContents ++
          (if cfg.hasFile then [escape_ansi (utf8DecodeIgnore bs)] else []) } := by
  have hlen : (utf8DecodeIgnore bs).length > 0 := List.length_pos.mpr h
  cases hf : cfg.hasFile <;>
    simp [loopStep, hf, hlen]

/-- `print_color` is exactly `colourWrap` at the colour `find_print_colour`
chooses. -/
theorem print_color_eq_wrap (s : List Char) :
    print_color s = colourWrap (find_print_colour s) s := rfl

/-- A run of `n` failed open attempts only advances the spinner counter by
`n` and prepends the corresponding spinner/sleep actions; whatever follows
is handled as if the failures had not happened. -/
theorem supervise_replicate_failure (port : String) : ∀ (n c : Nat)
    (rest : List OpenAttempt),
    supervise port (List.replicate n .failure ++ rest) c =
      ((supervise port rest (c + n)).1,
        retryActions port n c ++ (supervise port rest (c + n)).2) := by
  intro n
  induction n with
  | zero =>
    intro c rest
    simp [retryActions]
  | succ n ih =>
    intro c rest
    rw [List.replicate_succ, List.cons_append]
    show (let w := wait_with_spinner port c
          let r := supervise port (List.replicate n .failure ++ rest) w.1
          (r.1, .spin w.2 :: .sleep RETRY_DELAY_MS :: r.2)) = _
    simp only [wait_with_spinner]
    rw [ih (c + 1) rest]
    have hc : c + 1 + n = c + (n + 1) := by omega
    rw [hc]
    simp [retryActions, wait_with_spinner]

/-- The characters of the session timestamp, spelled out. -/
theorem sessionStamp_data (t : SessionTime) :
    (sessionStamp t).data =
      [Nat.digitChar (t.year / 1000 % 10), Nat.digitChar (t.year / 100 % 10),
       Nat.digitChar (t.year / 10 % 10), Nat.digitChar (t.year % 10), '.',
       Nat.digitChar (t.month / 10 % 10), Nat.digitChar (t.month % 10), '.',
       Nat.digitChar (t.day / 10 % 10), Nat.digitChar (t.day % 10), '_',
       Nat.digitChar (t.hour / 10 % 10), Nat.digitChar (t.hour % 10), '.',
       Nat.digitChar (t.minute / 10 % 10), Nat.digitChar (t.minute % 10), '.',
       Nat.digitChar (t.second / 10 % 10), Nat.digitChar (t.second % 10)] := rfl

/-! ## The claims. -/

/-- Claim C1: the legacy read loop of src/monitor.py exits with status 1 on
a device exception or an I/O error, but — against the claim — it also exits
with status 1 on a keyboard interrupt, because all three handlers reach
`print_and_quit`, which unconditionally calls `sys.exit(1)`. -/
theorem c1_exit_status_on_interrupt_and_error (cfg : LoopConfig) (st : LoopState) :
    loopStep cfg st .kbInterrupt = .exited 1 ∧
    loopStep cfg st .serialExc = .exited 1 ∧
    loopStep cfg st .ioError = .exited 1 :=
  ⟨rfl, rfl, rfl⟩

/-- Claim C2: a run of failed open attempts never terminates the Connection
Supervisor: each failure shows one spinner frame, sleeps the fixed retry
delay and retries, only advancing the spinner counter; after any number of
consecutive failures the supervisor is still connecting, and whatever
attempt comes next is handled exactly as if the failures had not
happened. -/
theorem c2_open_failure_spinner_retry (port : String) (n c : Nat)
    (rest : List OpenAttempt) :
    supervise port (List.replicate n .failure ++ rest) c =
      ((supervise port rest (c + n)).1,
        retryActions port n c ++ (supervise port rest (c + n)).2) ∧
    (supervise port (List.replicate n .failure) c).1 = .connecting (c + n) := by
  constructor
  · exact supervise_replicate_failure port n c rest
  · have h := supervise_replicate_failure port n c []
    rw [List.append_nil] at h
    rw [h]
    rfl

/-- Claim C3, as the legacy code actually behaves: decoding never raises
and never leaves the read loop — a non-empty decode always continues to the
next iteration — but the bytes of the malformed test line decode with the
invalid bytes dropped, to `" invalid\n"` with no replacement marker in
it. -/
theorem c3_decode_never_aborts :
    utf8DecodeIgnore demoBytes = " invalid\n".data ∧
    ¬ Char.ofNat 0xFFFD ∈ utf8DecodeIgnore demoBytes ∧
    ∀ (cfg : LoopConfig) (st : LoopState) (bs : List Nat),
      utf8DecodeIgnore bs ≠ [] →
      ∃ st2, loopStep cfg st (.bytes bs) = .next st2 := by
  refine ⟨by decide, by decide, ?_⟩
  intro cfg st bs h
  exact ⟨_, loopStep_bytes_next cfg st bs h⟩

/-- Witness for claim C3's theorem at the malformed test line. -/
theorem c3_decode_never_aborts_witness :
    ∃ st2, loopStep ⟨false, true, true, []⟩ initState (.bytes demoBytes) = .next st2 :=
  c3_decode_never_aborts.2.2 ⟨false, true, true, []⟩ initState demoBytes (by decide)

/-- Counterexample to claim C3 as stated: the line the loop prints for the
malformed test bytes contains no replacement marker — the loop decodes
with errors ignored, so the invalid bytes are dropped, not replaced. -/
theorem c3_no_replacement_marker :
    loopStep ⟨false, true, false, []⟩ initState (.bytes demoBytes) =
      .next ⟨some " invalid\n".data, [print_color " invalid\n".data], []⟩ ∧
    ¬ Char.ofNat 0xFFFD ∈ print_color " invalid\n".data := by
  constructor
  · decide
  · decide

/-- Claim C4: on an empty read the legacy loop takes no visible action only
when no log file is configured.  With logging enabled the iteration is
broken — the `file.write(colours_stripped)` call sits outside the non-empty
guard, so the very first empty read dies on the unbound local
`colours_stripped`, and an empty read after a non-empty one appends the
previous stripped line to the log again. -/
theorem c4_empty_read_logging_divergence :
    loopStep ⟨false, true, true, []⟩ initState (.bytes []) =
      .pythonError "UnboundLocalError" ∧
    loopStep ⟨false, true, true, []⟩ ⟨some "prev".data, [], []⟩ (.bytes []) =
      .next ⟨some "prev".data, [], ["prev".data]⟩ ∧
    loopStep ⟨false, true, false, []⟩ initState (.bytes []) = .next initState :=
  ⟨rfl, rfl, rfl⟩

/-- Claim C5: with a Log Sink configured, every non-empty line is written
as the ANSI-stripped form of the timestamp-prefixed line; provided the
timestamp prefix itself contains no escape introducer (true of every
numeric mode), the written text is exactly the timestamp prefix followed
by the stripped line, so it always carries the prefix and is plain. -/
theorem c5_log_sink_plain_and_timestamped (mode : String) (now : Instant)
    (line : List Char) (h1 : line ≠ [])
    (h2 : ∀ c ∈ (add_time_to_line mode now).data, isIntro c = false) :
    serial_loop_sink mode now true line =
      some (escape_ansi ((add_time_to_line mode now).data ++ line)) ∧
    serial_loop_sink mode now true line =
      some ((add_time_to_line mode now).data ++ escape_ansi line) ∧
    serial_loop_sink mode now false line = none := by
  have hlen : 0 < line.length := List.length_pos.mpr h1
  refine ⟨?_, ?_, ?_⟩
  · simp [serial_loop_sink, hlen]
  · rw [show serial_loop_sink mode now true line =
        some (escape_ansi ((add_time_to_line mode now).data ++ line)) by
      simp [serial_loop_sink, hlen]]
    rw [escape_ansi_clean_append _ _ h2]
  · simp [serial_loop_sink]

/-- Witness for claim C5's theorem: a red-coloured line under mode `epoch`
at a fixed instant. -/
theorem c5_log_sink_plain_and_timestamped_witness :
    serial_loop_sink "epoch" ⟨1700000000123400, ""⟩ true ansiRedLine =
      some ((add_time_to_line "epoch" ⟨1700000000123400, ""⟩).data ++
        escape_ansi ansiRedLine) :=
  (c5_log_sink_plain_and_timestamped "epoch" ⟨1700000000123400, ""⟩ ansiRedLine
    (by decide) (by decide)).2.1

/-- Claim C6: the timestamp annotator yields the empty string for mode
`off`, epoch seconds with exactly three decimal places and a trailing space
for mode `epoch` (in particular the documented instant formats to
`"1700000000.123 "`), integer epoch milliseconds with a trailing space for
mode `ms`, and the empty string for every unrecognized mode. -/
theorem c6_timestamp_annotator_formats :
    (∀ now : Instant, add_time_to_line "off" now = "") ∧
    add_time_to_line "epoch" ⟨1700000000123400, ""⟩ = "1700000000.123 " ∧
    (∀ now : Instant, ∃ s f : Nat,
      add_time_to_line "epoch" now = toString s ++ "." ++ pad3 f ++ " " ∧
      f < 1000 ∧ (pad3 f).length = 3) ∧
    (∀ now : Instant, add_time_to_line "ms" now = toString (now.us / 1000) ++ " ") ∧
    (∀ (mode : String) (now : Instant), mode ≠ "off" → mode ≠ "epoch" →
      mode ≠ "ms" → mode ≠ "dt" → mode ≠ "hours" →
      add_time_to_line mode now = "") := by
  refine ⟨?_, by decide, ?_, ?_, ?_⟩
  · intro now
    simp [add_time_to_line]
  · intro now
    refine ⟨((now.us + 500) / 1000) / 1000, ((now.us + 500) / 1000) % 1000,
      ?_, Nat.mod_lt _ (by omega), rfl⟩
    simp [add_time_to_line]
  · intro now
    simp [add_time_to_line]
  · intro mode now h1 h2 h3 h4 h5
    simp [add_time_to_line, h1, h2, h3, h4, h5]

/-- Witness for claim C6's theorem at the instants the repository's own
tests use. -/
theorem c6_timestamp_annotator_formats_witness :
    add_time_to_line "ms" ⟨1672531200123000, ""⟩ = "1672531200123 " ∧
    add_time_to_line "invalid" ⟨0, ""⟩ = "" := by
  constructor
  · rw [c6_timestamp_annotator_formats.2.2.2.1 ⟨1672531200123000, ""⟩]
    rfl
  · exact c6_timestamp_annotator_formats.2.2.2.2 "invalid" ⟨0, ""⟩
      (by decide) (by decide) (by decide) (by decide) (by decide)

/-- Counterexample to claim C7: stripping is not idempotent — on the line
`ESC [ ESC [ 0 m m` the first pass removes the complete inner sequence and
thereby splices the dangling `ESC [` against the trailing `m`, forming a
new escape sequence that a second pass removes. -/
theorem c7_strip_not_idempotent :
    escape_ansi (escape_ansi exC7) ≠ escape_ansi exC7 := by decide

/-- Claim C7 amended: the stripper is idempotent on every input whose
stripped form retains no escape introducer (no ESC and no C1 character) —
in particular on any input it maps to introducer-free plain text. -/
theorem c7_strip_idempotent_on_clean (l : List Char)
    (h : ∀ c ∈ escape_ansi l, isIntro c = false) :
    escape_ansi (escape_ansi l) = escape_ansi l :=
  escape_ansi_of_clean _ h

/-- Witness for claim C7's amended theorem on a line with one complete
colour sequence. -/
theorem c7_strip_idempotent_on_clean_witness :
    escape_ansi (escape_ansi ansiDemoLine) = escape_ansi ansiDemoLine :=
  c7_strip_idempotent_on_clean ansiDemoLine (by decide)

/-- Claim C8: with logging enabled the opened log path is the configured
log directory joined with the session stamp, an underscore, the log-file
base name and `.txt`; the directory is created exactly when it does not
already exist; and the session stamp has the shape `YYYY.MM.DD_HH.MM.SS` —
nineteen characters, separators at the documented positions, decimal
digits everywhere else. -/
theorem c8_log_file_name_and_directory (t : SessionTime) (lf ld : String) :
    (run_serial_printing_with_logs t lf ld false).1 = true ∧
    (run_serial_printing_with_logs t lf ld true).1 = false ∧
    (∀ e : Bool, (run_serial_printing_with_logs t lf ld e).2 =
      ld ++ "/" ++ sessionStamp t ++ "_" ++ lf ++ ".txt") ∧
    (sessionStamp t).length = 19 ∧
    (sessionStamp t).data.map Char.isDigit =
      [true, true, true, true, false, true, true, false, true, true, false,
       true, true, false, true, true, false, true, true] ∧
    (sessionStamp t).data.get? 4 = some '.' ∧
    (sessionStamp t).data.get? 7 = some '.' ∧
    (sessionStamp t).data.get? 10 = some '_' ∧
    (sessionStamp t).data.get? 13 = some '.' ∧
    (sessionStamp t).data.get? 16 = some '.' := by
  refine ⟨rfl, rfl, fun e => rfl, rfl, ?_, rfl, rfl, rfl, rfl, rfl⟩
  rw [sessionStamp_data]
  simp [digitChar_mod10_isDigit]

/-- Claim C9: `print_color` writes exactly the escape header with the
selected colour, then the string unchanged, then the reset sequence — so
every printed line ends in the reset and nothing appends a newline — and
the selected colour is 93, 91 or 92 when the first bracketed or
parenthesized token is `W`, `E` or `I` respectively, and 0 for any other
token or when there is none. -/
theorem c9_print_color_format (s : List Char) :
    (firstBracketToken s = some ['W'] → print_color s = colourWrap 93 s) ∧
    (firstBracketToken s = some ['E'] → print_color s = colourWrap 91 s) ∧
    (firstBracketToken s = some ['I'] → print_color s = colourWrap 92 s) ∧
    (∀ t, firstBracketToken s = some t → t ≠ ['W'] → t ≠ ['E'] → t ≠ ['I'] →
      print_color s = colourWrap 0 s) ∧
    (firstBracketToken s = none → print_color s = colourWrap 0 s) ∧
    ∃ u, print_color s = u ++ [escChar, '[', '0', 'm'] := by
  refine ⟨?_, ?_, ?_, ?_, ?_, ?_⟩
  · intro h
    rw [print_color_eq_wrap]
    simp [find_print_colour, h]
  · intro h
    rw [print_color_eq_wrap]
    simp [find_print_colour, h]
  · intro h
    rw [print_color_eq_wrap]
    simp [find_print_colour, h]
  · intro t h ht1 ht2 ht3
    rw [print_color_eq_wrap]
    simp [find_print_colour, h, ht1, ht2, ht3]
  · intro h
    rw [print_color_eq_wrap]
    simp [find_print_colour, h]
  · refine ⟨escChar :: '[' :: (toString (find_print_colour s)).data ++ 'm' :: s, ?_⟩
    simp [print_color]

/-- Witness for claim C9's theorem on a warning-level line. -/
theorem c9_print_color_format_witness :
    print_color "[W] boot".data = colourWrap 93 "[W] boot".data :=
  (c9_print_color_format "[W] boot".data).1 (by decide)

/-- Counterexample to claim C10: an escape sequence built from
device-sent bytes can reach the terminal in pretty-colours mode.  For the
received bytes `ESC [ ESC [ 0 m m` and a newline, the stripped copy the
loop prints is `ESC [ m` and a newline — stripping the complete inner
sequence spliced the dangling `ESC [` against the trailing `m` — and that
printed body begins with a complete ANSI escape sequence, as the
successful `ansiMatch` at its head shows. -/
theorem c10_escape_reaches_terminal_counterexample :
    loopStep ⟨false, true, false, []⟩ initState
        (.bytes [0x1B, 0x5B, 0x1B, 0x5B, 0x30, 0x6D, 0x6D, 0x0A]) =
      .next ⟨some [escChar, '[', 'm', Char.ofNat 10],
        [print_color [escChar, '[', 'm', Char.ofNat 10]], []⟩ ∧
    ansiMatch [escChar, '[', 'm', Char.ofNat 10] = some [Char.ofNat 10] := by
  constructor
  · decide
  · decide

/-- Claim C10 amended: whenever the decoded line is non-empty, the line
chunk the legacy loop prints is `print_color` of the ANSI-stripped copy
exactly when pretty colours are on — the mode `parse_arguments` defaults
to — and the original line exactly when pretty colours are off.  (Only
this data-flow invariant holds: stripping does not guarantee that no
device-originated escape sequence reaches the terminal, as the
counterexample's spliced sequence shows.) -/
theorem c10_pretty_colours_stripped_display (cfg : LoopConfig) (st : LoopState)
    (bs : List Nat) (h : utf8DecodeIgnore bs ≠ []) :
    (∃ st2, loopStep cfg st (.bytes bs) = .next st2 ∧
      st2.printed = st.printed ++ (if cfg.print_time then [cfg.stamp] else []) ++
        [if cfg.pretty_colours then
           print_color (escape_ansi (utf8DecodeIgnore bs))
         else utf8DecodeIgnore bs]) ∧
    legacyArgDefaults.pretty_colours = true :=
  ⟨⟨_, loopStep_bytes_next cfg st bs h, rfl⟩, rfl⟩

/-- Witness for claim C10's theorem on a two-character line under the
default configuration. -/
theorem c10_pretty_colours_stripped_display_witness :
    (∃ st2, loopStep ⟨false, true, false, []⟩ initState
        (.bytes [0x68, 0x69, 0x0A]) = .next st2 ∧
      st2.printed = initState.printed ++
        (if (false : Bool) then [([] : List Char)] else []) ++
        [if (true : Bool) then
           print_color (escape_ansi (utf8DecodeIgnore [0x68, 0x69, 0x0A]))
         else utf8DecodeIgnore [0x68, 0x69, 0x0A]]) ∧
    legacyArgDefaults.pretty_colours = true :=
  c10_pretty_colours_stripped_display ⟨false, true, false, []⟩ initState
    [0x68, 0x69, 0x0A] (by decide)

end SerialMon
